import Mathlib

/-!
Verification of the tuan-invoice PDF generator against its specification.

The development shallowly embeds the layout, pagination and money-total
logic of the repository.  Pure calculations are embedded as Lean functions
over `ℚ`; the stateful PDF cursor is embedded as explicit state passing.
Functions whose Go source lives outside the provided files (the document
calculation helpers, `Validate`, the money formatter, the layout constants)
are modelled from the specification and marked as such in their doc
comments.  Everything else is a direct translation of the Go source.
-/

namespace Invoice

/-! ## Document totals (claim C1)

Modelled from the spec: the per-line calculator (spec 4.2) and the document
totals (spec 4.3).  The Go implementations (`Item` calculation helpers and
`Document.TotalWithoutTax`, `Document.Tax`, `Document.TotalWithTax`,
`Discount.getDiscount`) are part of this repository but are not under the
provided source files. -/

/-- Modelled from the spec: a discount is exactly one of a percentage or a
fixed amount; the percentage takes precedence when both are set. -/
inductive DiscountRule where
  | percent (p : ℚ)
  | fixed (f : ℚ)
deriving DecidableEq

/-- Modelled from the spec: one billable line with unit cost, quantity,
optional tax percentage and optional discount (spec section 3). -/
structure CalcItem where
  unitCost : ℚ
  quantity : ℚ
  tax : Option ℚ
  discount : Option DiscountRule
deriving DecidableEq

/-- Modelled from the spec: apply an optional discount rule to a base
amount, flooring the result at 0 when it would go negative (spec 4.2). -/
def discountedOf (base : ℚ) (d : Option DiscountRule) : ℚ :=
  match d with
  | none => base
  | some (DiscountRule.percent p) => max 0 (base - base * p / 100)
  | some (DiscountRule.fixed f) => max 0 (base - f)

/-- Modelled from the spec: per-line subtotal, `u * q` (spec 4.2). -/
def itemSubtotal (it : CalcItem) : ℚ := it.unitCost * it.quantity

/-- Modelled from the spec: per-line discounted subtotal (spec 4.2). -/
def itemDiscountedSubtotal (it : CalcItem) : ℚ :=
  discountedOf (itemSubtotal it) it.discount

/-- Modelled from the spec: per-line tax amount, `discounted * t / 100` or 0
when the line has no tax (spec 4.2). -/
def itemTaxAmount (it : CalcItem) : ℚ :=
  match it.tax with
  | none => 0
  | some t => itemDiscountedSubtotal it * t / 100

/-- Modelled from the spec: per-line total with tax (spec 4.2). -/
def itemTotal (it : CalcItem) : ℚ := itemDiscountedSubtotal it + itemTaxAmount it

/-- Modelled from the spec: the item list and optional document-level
discount of a document, the inputs of the totals aggregation (spec 4.3). -/
structure CalcDoc where
  items : List CalcItem
  discount : Option DiscountRule
deriving DecidableEq

/-- Modelled from the spec: `total_without_tax_without_discount`, the sum of
the per-item subtotals (spec 4.3). -/
def totalWithoutTaxAndWithoutDocumentDiscount (d : CalcDoc) : ℚ :=
  (d.items.map itemSubtotal).sum

/-- Modelled from the spec: `total_without_tax`, the sum of the per-item
discounted subtotals (spec 4.3). -/
def totalWithoutTax (d : CalcDoc) : ℚ :=
  (d.items.map itemDiscountedSubtotal).sum

/-- Modelled from the spec: the document-level discount amount, obtained by
applying the document discount to `total_without_tax` with the same
percentage-or-fixed rule (including the floor at 0) as line discounts
(spec 4.3). -/
def documentDiscountAmount (d : CalcDoc) : ℚ :=
  totalWithoutTax d - discountedOf (totalWithoutTax d) d.discount

/-- Modelled from the spec: `tax_total`, the sum of the per-item tax amounts
(spec 4.3). -/
def taxTotal (d : CalcDoc) : ℚ :=
  (d.items.map itemTaxAmount).sum

/-- Modelled from the spec: `total_with_tax =
total_without_tax - discount_amount + tax_total` (spec 4.3). -/
def totalWithTax (d : CalcDoc) : ℚ :=
  totalWithoutTax d - documentDiscountAmount d + taxTotal d

/-- A discount rule carries a non-negative value (the data-model invariant:
amounts parse to non-negative decimals). -/
def discountNonneg (d : Option DiscountRule) : Prop :=
  match d with
  | none => True
  | some (DiscountRule.percent p) => 0 ≤ p
  | some (DiscountRule.fixed f) => 0 ≤ f

instance (d : Option DiscountRule) : Decidable (discountNonneg d) := by
  unfold discountNonneg
  match d with
  | none => exact inferInstance
  | some (DiscountRule.percent p) => exact inferInstance
  | some (DiscountRule.fixed f) => exact inferInstance

theorem itemDiscountedSubtotal_nonneg (it : CalcItem)
    (hu : 0 ≤ it.unitCost) (hq : 0 ≤ it.quantity) :
    0 ≤ itemDiscountedSubtotal it := by
  unfold itemDiscountedSubtotal discountedOf itemSubtotal
  match it.discount with
  | none => exact mul_nonneg hu hq
  | some (DiscountRule.percent p) => exact le_max_left 0 _
  | some (DiscountRule.fixed f) => exact le_max_left 0 _

theorem discountedOf_percent_zero (b : ℚ) (hb : 0 ≤ b) :
    discountedOf b (some (DiscountRule.percent 0)) = b := by
  show max 0 (b - b * 0 / 100) = b
  rw [mul_zero, zero_div, sub_zero, max_eq_right hb]

theorem discountedOf_fixed_zero (b : ℚ) (hb : 0 ≤ b) :
    discountedOf b (some (DiscountRule.fixed 0)) = b := by
  show max 0 (b - 0) = b
  rw [sub_zero, max_eq_right hb]

theorem totalWithoutTax_nonneg (items : List CalcItem) (disc : Option DiscountRule)
    (hitems : ∀ it ∈ items, 0 ≤ it.unitCost ∧ 0 ≤ it.quantity) :
    0 ≤ totalWithoutTax ⟨items, disc⟩ := by
  unfold totalWithoutTax
  apply List.sum_nonneg
  intro x hx
  simp only [List.mem_map] at hx
  obtain ⟨it, hit, rfl⟩ := hx
  exact itemDiscountedSubtotal_nonneg it (hitems it hit).1 (hitems it hit).2

/-- Claim C1: the totals block aggregates satisfy
`total_without_tax_without_discount = Σ subtotal`, `tax_total = Σ tax`,
`total_with_tax = total_without_tax - discount_amount + tax_total`; with
zero line items every total is 0; and with a zero document-level discount
the discount amount is 0 and the grand total is unchanged. -/
theorem documentTotals_contract (items : List CalcItem) (disc : Option DiscountRule)
    (hitems : ∀ it ∈ items, 0 ≤ it.unitCost ∧ 0 ≤ it.quantity)
    (hd : discountNonneg disc) :
    totalWithoutTaxAndWithoutDocumentDiscount ⟨items, disc⟩
        = (items.map itemSubtotal).sum
  ∧ taxTotal ⟨items, disc⟩ = (items.map itemTaxAmount).sum
  ∧ totalWithTax ⟨items, disc⟩
        = totalWithoutTax ⟨items, disc⟩ - documentDiscountAmount ⟨items, disc⟩
            + taxTotal ⟨items, disc⟩
  ∧ (items = [] →
        totalWithoutTaxAndWithoutDocumentDiscount ⟨[], disc⟩ = 0
      ∧ totalWithoutTax ⟨[], disc⟩ = 0
      ∧ taxTotal ⟨[], disc⟩ = 0
      ∧ documentDiscountAmount ⟨[], disc⟩ = 0
      ∧ totalWithTax ⟨[], disc⟩ = 0)
  ∧ (∀ z : DiscountRule, (z = DiscountRule.percent 0 ∨ z = DiscountRule.fixed 0) →
        documentDiscountAmount ⟨items, some z⟩ = 0
      ∧ totalWithTax ⟨items, some z⟩ = totalWithTax ⟨items, none⟩) := by
  have hb : 0 ≤ totalWithoutTax ⟨items, disc⟩ := totalWithoutTax_nonneg items disc hitems
  refine ⟨rfl, rfl, rfl, ?_, ?_⟩
  · intro _
    refine ⟨rfl, rfl, rfl, ?_, ?_⟩
    · unfold documentDiscountAmount discountedOf totalWithoutTax
      match disc, hd with
      | none, _ => simp
      | some (DiscountRule.percent p), _ => simp
      | some (DiscountRule.fixed f), hd => simp [max_eq_left (neg_nonpos.mpr hd)]
    · unfold totalWithTax documentDiscountAmount discountedOf totalWithoutTax taxTotal
      match disc, hd with
      | none, _ => simp
      | some (DiscountRule.percent p), _ => simp
      | some (DiscountRule.fixed f), hd => simp [max_eq_left (neg_nonpos.mpr hd)]
  · intro z hz
    have hb' : 0 ≤ totalWithoutTax ⟨items, some z⟩ := by
      simpa [totalWithoutTax] using hb
    have hnone : documentDiscountAmount ⟨items, none⟩ = 0 := by
      show totalWithoutTax ⟨items, none⟩ - discountedOf (totalWithoutTax ⟨items, none⟩) none = 0
      show totalWithoutTax ⟨items, none⟩ - totalWithoutTax ⟨items, none⟩ = 0
      rw [sub_self]
    rcases hz with rfl | rfl
    · have hdisc : documentDiscountAmount ⟨items, some (DiscountRule.percent 0)⟩ = 0 := by
        show totalWithoutTax ⟨items, some (DiscountRule.percent 0)⟩
            - discountedOf (totalWithoutTax ⟨items, some (DiscountRule.percent 0)⟩)
                (some (DiscountRule.percent 0)) = 0
        rw [discountedOf_percent_zero _ hb', sub_self]
      refine ⟨hdisc, ?_⟩
      unfold totalWithTax
      rw [hdisc, hnone]
      simp [totalWithoutTax, taxTotal]
    · have hdisc : documentDiscountAmount ⟨items, some (DiscountRule.fixed 0)⟩ = 0 := by
        show totalWithoutTax ⟨items, some (DiscountRule.fixed 0)⟩
            - discountedOf (totalWithoutTax ⟨items, some (DiscountRule.fixed 0)⟩)
                (some (DiscountRule.fixed 0)) = 0
        rw [discountedOf_fixed_zero _ hb', sub_self]
      refine ⟨hdisc, ?_⟩
      unfold totalWithTax
      rw [hdisc, hnone]
      simp [totalWithoutTax, taxTotal]

/-- Concrete line items for the C1 witness: one line of unit cost 100,
quantity 2, 10 percent tax, no line discount. -/
def c1items : List CalcItem := [⟨100, 2, some 10, none⟩]

/-- Claim C1 witness: the totals contract instantiated at a concrete
document with a zero percentage document discount. -/
theorem documentTotals_contract_witness :
    (∀ it ∈ c1items, 0 ≤ it.unitCost ∧ 0 ≤ it.quantity)
  ∧ discountNonneg (some (DiscountRule.percent 0))
  ∧ (documentDiscountAmount ⟨c1items, some (DiscountRule.percent 0)⟩ = 0
      ∧ totalWithTax ⟨c1items, some (DiscountRule.percent 0)⟩
          = totalWithTax ⟨c1items, none⟩) :=
  ⟨by decide, by decide,
    (documentTotals_contract c1items (some (DiscountRule.percent 0))
        (by decide) (by decide)).2.2.2.2 (DiscountRule.percent 0) (Or.inl rfl)⟩

/-! ## Item table pagination (claim C2)

Embedding of `appendItems` and `drawsTableTitles` of the first variant in
`src/multi_document.go` (lines 207 to 347): the vertical cursor, the number
of physical pages and the number of table-header renders.  The per-row
renderer `Item.appendColTo` is not under the provided source files; it is
modelled from the spec as rendering one row at the cursor (the explicit
`SetY(GetY()+6)` of `appendItems` is the row advance).  `MaxPageHeight` and
the top-of-page cursor after `AddPage` are kept as parameters `maxH` and
`topY`. -/

/-- Cursor `y`, physical page count and table-header render count while the
item table is appended. -/
structure ItemsState where
  y : ℚ
  pages : ℕ
  headers : ℕ
deriving DecidableEq

/-- `drawsTableTitles`: advances the cursor by 5 and draws the header band
of height 6 there (the title cells keep the cursor). -/
def drawsTableTitles (s : ItemsState) : ItemsState :=
  { s with y := s.y + 5, headers := s.headers + 1 }

/-- One iteration of the `appendItems` loop: the row is rendered at the
cursor, then if the cursor exceeds `maxH` a page is added and the table
header re-rendered, and finally the cursor advances by 6. -/
def itemRowStep (maxH topY : ℚ) (s : ItemsState) : ItemsState :=
  let s1 :=
    if maxH < s.y then
      drawsTableTitles { s with y := topY, pages := s.pages + 1 }
    else s
  { s1 with y := s1.y + 6 }

/-- The `appendItems` item loop, iterated over `n` items. -/
def itemsLoop (maxH topY : ℚ) : ℕ → ItemsState → ItemsState
  | 0, s => s
  | n + 1, s => itemsLoop maxH topY n (itemRowStep maxH topY s)

/-- `appendItems`: draws the table titles, moves the cursor 8 below them,
then iterates the row loop over the `n` items. -/
def appendItems (maxH topY : ℚ) (n : ℕ) (s : ItemsState) : ItemsState :=
  let s1 := drawsTableTitles s
  itemsLoop maxH topY n { s1 with y := s1.y + 8 }

/-- The number of item rows a page started by a mid-table page break can
hold: rows land at `topY + 11`, `topY + 17`, and so on, and the row whose
cursor exceeds `maxH` is the last row of its page. -/
def rowsPerPage (maxH topY : ℚ) : ℤ :=
  ⌊(maxH - topY - 11) / 6⌋ + 2

theorem itemRowStep_pages (maxH topY : ℚ) (s : ItemsState) :
    (itemRowStep maxH topY s).pages = s.pages + (if maxH < s.y then 1 else 0) := by
  unfold itemRowStep drawsTableTitles
  split <;> simp

theorem itemRowStep_headers (maxH topY : ℚ) (s : ItemsState) :
    (itemRowStep maxH topY s).headers = s.headers + (if maxH < s.y then 1 else 0) := by
  unfold itemRowStep drawsTableTitles
  split <;> simp

theorem itemsLoop_pages_headers (maxH topY : ℚ) :
    ∀ (n : ℕ) (s : ItemsState),
      (itemsLoop maxH topY n s).pages + s.headers
        = (itemsLoop maxH topY n s).headers + s.pages
  | 0, s => Nat.add_comm s.pages s.headers
  | n + 1, s => by
    have ih := itemsLoop_pages_headers maxH topY n (itemRowStep maxH topY s)
    have hp := itemRowStep_pages maxH topY s
    have hh := itemRowStep_headers maxH topY s
    simp only [itemsLoop]
    omega

theorem appendItems_eq_loop (maxH topY : ℚ) (n : ℕ) (s : ItemsState) :
    appendItems maxH topY n s
      = itemsLoop maxH topY n ⟨s.y + 5 + 8, s.pages, s.headers + 1⟩ := rfl

/-- Claim C2 counterexample: with `maxH = 20` and `topY = 0` every page
holds exactly 3 rows, yet appending 3 items from a fresh page emits 2
physical pages, not `⌈3 / 3⌉ = 1`: the third row overflows the limit and
the loop starts one more page (with a re-rendered header and no rows). -/
theorem appendItems_page_count_counterexample :
    ¬ ((appendItems 20 0 3 ⟨0, 1, 0⟩).pages
        = (3 + (rowsPerPage 20 0).toNat - 1) / (rowsPerPage 20 0).toNat) := by
  have h1 : (appendItems 20 0 3 ⟨0, 1, 0⟩).pages = 2 := by
    norm_num [appendItems, itemsLoop, itemRowStep, drawsTableTitles]
  have h2 : rowsPerPage 20 0 = 3 := by norm_num [rowsPerPage]
  rw [h1, h2]
  decide

/-- Claim C2 (amended): inside the item loop a new physical page is started,
with the table header re-rendered, exactly when the cursor after a rendered
row exceeds `maxH` (and this is the only pagination trigger of the loop);
consequently every page added during `appendItems` carries exactly one
header re-render, the initial table titles included, but the page count is
1 plus the number of overflowing rows, which can exceed
`⌈n / rows_per_page⌉` when the last row overflows. -/
theorem appendItems_row_overflow_pagination (maxH topY : ℚ) (n : ℕ) (s : ItemsState) :
    (itemRowStep maxH topY s).pages = s.pages + (if maxH < s.y then 1 else 0)
  ∧ (itemRowStep maxH topY s).headers = s.headers + (if maxH < s.y then 1 else 0)
  ∧ (appendItems maxH topY n s).pages + s.headers + 1
      = (appendItems maxH topY n s).headers + s.pages := by
  refine ⟨itemRowStep_pages maxH topY s, itemRowStep_headers maxH topY s, ?_⟩
  rw [appendItems_eq_loop]
  have := itemsLoop_pages_headers maxH topY n
      ⟨s.y + 5 + 8, s.pages, s.headers + 1⟩
  dsimp only at this
  omega

/-! ## Page break before the totals block (claim C3)

Embedding of the tail of `buildDocument` of the first variant in
`src/multi_document.go` (lines 138 to 157) together with the cursor effect
of `appendNotes` and `appendTotal` (lines 349 to 499).  The cursor is
modelled as plain assignment, per the renderer interface of the spec;
`MaxPageHeight` and the top-of-page cursor stay parameters.  A short notes
field advances the cursor by the fixed 40 of `appendNotes`; the barcode
block restores the cursor (proved with claim C8). -/

/-- Cursor and page count after the item table. -/
structure FlowState where
  y : ℚ
  pages : ℕ
deriving DecidableEq

/-- The projected cursor computed by `buildDocument` before the totals
block: `GetY() + 30`, plus 15 when a document-level discount exists. -/
def totalsProjection (hasDiscount : Bool) (y : ℚ) : ℚ :=
  y + 30 + (if hasDiscount then 15 else 0)

/-- The fixed height of the totals block drawn by `appendTotal`: three rows
of 10, plus the 15 discount row when a document discount exists. -/
def totalsHeight (hasDiscount : Bool) : ℚ :=
  if hasDiscount then 45 else 30

/-- The page-break check of `buildDocument` before the barcode, notes,
totals and payment-term block: one `AddPage` when the projection exceeds
`maxH`. -/
def preTotalsBreak (maxH topY : ℚ) (hasDiscount : Bool) (s : FlowState) : FlowState :=
  if maxH < totalsProjection hasDiscount s.y then
    { y := topY, pages := s.pages + 1 }
  else s

/-- Cursor effect of `appendNotes`: a non-empty notes field moves the
cursor down by the fixed 40 before writing. -/
def appendNotesFlow (hasNotes : Bool) (s : FlowState) : FlowState :=
  if hasNotes then { s with y := s.y + 40 } else s

/-- The cursor at which `appendTotal` begins drawing: `GetY() - 35`. -/
def totalsStart (hasNotes : Bool) (y : ℚ) : ℚ :=
  (if hasNotes then y + 40 else y) - 35

/-- Cursor effect of `appendTotal`: starts at `GetY() - 35`, moves 25 past
the first row when a discount row is drawn and 10 otherwise, then 10 past
the tax row to the total-with-tax row; no page is added. -/
def appendTotalFlow (hasDiscount : Bool) (s : FlowState) : FlowState :=
  let start := s.y - 35
  let afterDiscount := if hasDiscount then start + 25 else start + 10
  { s with y := afterDiscount + 10 }

/-- Claim C3: after the last item row, `buildDocument` projects the cursor
plus the fixed totals height (plus 15 with a document discount); exactly
one extra page break happens when the projection exceeds `maxH`; the totals
block then never begins past `maxH`, and no page break happens while the
totals block itself is rendered. -/
theorem buildDocument_totals_break (maxH topY : ℚ) (d notes : Bool) (s : FlowState)
    (h : topY + 5 ≤ maxH) :
    (preTotalsBreak maxH topY d s).pages
        = s.pages + (if maxH < totalsProjection d s.y then 1 else 0)
  ∧ totalsStart notes (preTotalsBreak maxH topY d s).y ≤ maxH
  ∧ (appendNotesFlow notes (preTotalsBreak maxH topY d s)).y - 35
        = totalsStart notes (preTotalsBreak maxH topY d s).y
  ∧ (appendTotalFlow d (appendNotesFlow notes (preTotalsBreak maxH topY d s))).pages
        = (preTotalsBreak maxH topY d s).pages := by
  have hpages : (preTotalsBreak maxH topY d s).pages
      = s.pages + (if maxH < totalsProjection d s.y then 1 else 0) := by
    unfold preTotalsBreak
    split_ifs <;> simp
  have hyle : (preTotalsBreak maxH topY d s).y ≤ maxH - 30
      ∨ (preTotalsBreak maxH topY d s).y = topY := by
    unfold preTotalsBreak
    split_ifs with hb
    · right; rfl
    · left
      push_neg at hb
      unfold totalsProjection at hb
      have h0 : (0 : ℚ) ≤ (if d = true then (15 : ℚ) else 0) := by
        split_ifs <;> norm_num
      linarith
  have hstart : totalsStart notes (preTotalsBreak maxH topY d s).y ≤ maxH := by
    unfold totalsStart
    rcases hyle with hle | heq
    · cases notes <;> simp only [Bool.false_eq_true, if_true, if_false,
        ite_true, ite_false] <;> linarith
    · rw [heq]
      cases notes <;> simp only [Bool.false_eq_true, if_true, if_false,
        ite_true, ite_false] <;> linarith
  have hnoteseq : (appendNotesFlow notes (preTotalsBreak maxH topY d s)).y - 35
      = totalsStart notes (preTotalsBreak maxH topY d s).y := by
    unfold appendNotesFlow totalsStart
    cases notes <;> simp
  have hpages2 : (appendTotalFlow d (appendNotesFlow notes
        (preTotalsBreak maxH topY d s))).pages
      = (preTotalsBreak maxH topY d s).pages := by
    unfold appendTotalFlow appendNotesFlow
    cases notes <;> rfl
  exact ⟨hpages, hstart, hnoteseq, hpages2⟩

/-- Claim C3 witness: with `maxH = 260`, `topY = 20`, a document discount,
no notes and cursor 240 after the items, the projection 285 exceeds 260, so
exactly one page is added and the totals begin at -15, within the limit. -/
theorem buildDocument_totals_break_witness :
    ((20 : ℚ) + 5 ≤ 260)
  ∧ (preTotalsBreak 260 20 true ⟨240, 1⟩).pages
        = 1 + (if (260 : ℚ) < totalsProjection true 240 then 1 else 0)
  ∧ totalsStart false (preTotalsBreak 260 20 true ⟨240, 1⟩).y ≤ 260 :=
  ⟨by norm_num,
    (buildDocument_totals_break 260 20 true false ⟨240, 1⟩ (by norm_num)).1,
    (buildDocument_totals_break 260 20 true false ⟨240, 1⟩ (by norm_num)).2.1⟩

/-! ## Color fallback (claim C4)

Embedding of `getSafeColor` (`src/multi_document.go` lines 79 to 84) and of
the direct color-array indexing performed by the contact block
(`src/unnamed/part_000` lines 55 to 63), which reads
`Options.GreyBgColor[0]`, `[1]`, `[2]` without the length guard. -/

/-- `getSafeColor`: returns the configured array when it has at least 3
entries, and the default otherwise. -/
def getSafeColor (color defaultColor : List ℤ) : List ℤ :=
  if 3 ≤ color.length then color else defaultColor

/-- The fill color read by `appendContactTODoc` for a shaded contact block:
it indexes `GreyBgColor[0]`, `[1]`, `[2]` directly, so a shorter array has
no color to produce (`none` here stands for the index-out-of-range panic in
Go). -/
def contactFillColor (greyBgColor : List ℤ) : Option (ℤ × ℤ × ℤ) :=
  match greyBgColor[0]?, greyBgColor[1]?, greyBgColor[2]? with
  | some r, some g, some b => some (r, g, b)
  | _, _, _ => none

/-- Claim C4: `getSafeColor` does fall back to the default triple on arrays
shorter than 3 entries, but the contact-block fill bypasses it and indexes
the array directly, so a build with a short `GreyBgColor` reads out of
bounds (evaluated here at the failing inputs `[]` and `[240, 240]`). -/
theorem contactFill_shortColor_outOfBounds :
    contactFillColor [] = none
  ∧ contactFillColor [240, 240] = none
  ∧ getSafeColor [] [240, 240, 240] = [240, 240, 240]
  ∧ getSafeColor [240, 240] [240, 240, 240] = [240, 240, 240]
  ∧ getSafeColor [10, 20, 30] [240, 240, 240] = [10, 20, 30]
  ∧ contactFillColor [171, 240, 129] = some (171, 240, 129) := by
  refine ⟨rfl, rfl, rfl, rfl, rfl, rfl⟩

/-! ## Validation aborts the multi-document build (claim C5)

Embedding of `MultiDocument.Build` and the head of `buildDocument` of the
first variant in `src/multi_document.go` (lines 54 to 98): per document,
`AddPage` first, then `Validate`; a validation failure aborts the whole
build.  `Document.Validate` is not under the provided source files and is
modelled from the spec: required fields such as the company name must be
present.  A page is summarised by the reference of the document whose
content was committed on it (`none` for a page with no content). -/

/-- The document fields relevant to validation and page identity. -/
structure BDoc where
  ref : String
  companyName : String
deriving DecidableEq

/-- Modelled from the spec: `Document.Validate` requires the company name
to be present (spec section 7, `ValidationError`). -/
def validateDoc (d : BDoc) : Bool := d.companyName ≠ ""

/-- One emitted physical page, summarised by the reference of the document
whose content is committed on it; `none` is a page with no content. -/
structure BuiltPage where
  content : Option String
deriving DecidableEq

/-- The page fully rendered for a valid document. -/
def renderDocPage (d : BDoc) : BuiltPage := ⟨some d.ref⟩

/-- The `Build` loop: for each document a page is added, then the document
is validated; a valid document has its content committed on the new page,
an invalid one aborts the build with a validation error (`true` in the
second component), leaving the new page blank. -/
def buildDocs : List BDoc → List BuiltPage → List BuiltPage × Bool
  | [], pages => (pages, false)
  | d :: rest, pages =>
    if validateDoc d then buildDocs rest (pages ++ [renderDocPage d])
    else (pages ++ [⟨none⟩], true)

/-- `MultiDocument.Build` over the ordered document sequence. -/
def build (docs : List BDoc) : List BuiltPage × Bool := buildDocs docs []

theorem buildDocs_valid_front (bad : BDoc) (post : List BDoc)
    (hbad : validateDoc bad = false) :
    ∀ (pre : List BDoc) (pages : List BuiltPage),
      (∀ d ∈ pre, validateDoc d = true) →
      buildDocs (pre ++ bad :: post) pages
        = (pages ++ pre.map renderDocPage ++ [⟨none⟩], true)
  | [], pages, _ => by simp [buildDocs, hbad]
  | d :: pre, pages, hpre => by
    have hd : validateDoc d = true := hpre d (List.mem_cons_self d pre)
    have ih := buildDocs_valid_front bad post hbad pre (pages ++ [renderDocPage d])
      (fun x hx => hpre x (List.mem_cons_of_mem d hx))
    simp only [List.cons_append, buildDocs, hd, if_true, List.map_cons,
      List.append_eq]
    rw [ih]
    simp [List.append_assoc]

/-- Claim C5: when some document of the sequence fails validation (and all
documents before it are valid), the build aborts with a validation error;
the failing document's page carries no content, no later document is
processed, and the pages already rendered for the earlier documents remain
in the output. -/
theorem build_validation_abort (pre : List BDoc) (bad : BDoc) (post : List BDoc)
    (hpre : ∀ d ∈ pre, validateDoc d = true) (hbad : validateDoc bad = false) :
    build (pre ++ bad :: post) = (pre.map renderDocPage ++ [⟨none⟩], true) := by
  unfold build
  rw [buildDocs_valid_front bad post hbad pre [] hpre]
  simp

/-- Concrete documents for the C5 witness. -/
def docOK : BDoc := ⟨"INV-2024-001", "CONG TY ABC"⟩

/-- A document with the required company name missing. -/
def docBad : BDoc := ⟨"INV-2024-002", ""⟩

/-- A valid document placed after the failing one. -/
def docAfter : BDoc := ⟨"INV-2024-003", "CONG TY ABC"⟩

/-- Claim C5 witness: a three-document sequence whose second document lacks
the company name renders one full page, one blank page and an error; the
third document is never processed. -/
theorem build_validation_abort_witness :
    (∀ d ∈ [docOK], validateDoc d = true)
  ∧ validateDoc docBad = false
  ∧ build [docOK, docBad, docAfter]
      = ([renderDocPage docOK, ⟨none⟩], true) :=
  ⟨by decide, by decide, by
    have h := build_validation_abort [docOK] docBad [docAfter]
      (by decide) (by decide)
    simpa using h⟩

/-! ## Contact block geometry (claim C6)

Embedding of `Contact.appendContactTODoc` (`src/unnamed/part_000` lines 22
to 126): the pre-computed background-rectangle height and the cursor trace
of the drawing calls that follow it, relative to the block's top `y`.
`Address.ToString` is not under the provided source files; modelled from
the spec, it renders the street line, an optional second street line, the
postal-code and city line, and a country line omitted when empty. -/

/-- The address fields read by the contact block. -/
structure CAddress where
  address : String
  address2 : String
  postalCode : String
  city : String
  country : String
deriving DecidableEq

/-- The contact fields read by the layout: name, phone, optional address
and the optional additional-info lines (field spelling as in the source). -/
structure CContact where
  name : String
  phone : String
  address : Option CAddress
  addtionnalInfo : Option (List String)
deriving DecidableEq

/-- Modelled from the spec: the number of lines `Address.ToString` renders,
street line plus optional second line plus postal-code and city line plus a
country line omitted when empty. -/
def addressLineCount (a : CAddress) : ℕ :=
  2 + (if 0 < a.address2.length then 1 else 0)
    + (if a.country.length = 0 then 0 else 1)

/-- The `totalHeight` computed by `appendContactTODoc` before drawing: 10
for the name, 5 for a non-empty phone, 17 for an address plus 5 with a
second street line and minus 5 with an empty country, and 3 per
additional-info line plus 2. -/
def contactTotalHeight (c : CContact) : ℚ :=
  10 + (if c.phone ≠ "" then (5 : ℚ) else 0)
    + (match c.address with
       | none => 0
       | some a =>
         17 + (if 0 < a.address2.length then (5 : ℚ) else 0)
            - (if a.country.length = 0 then (5 : ℚ) else 0))
    + (match c.addtionnalInfo with
       | none => 0
       | some l => 3 * (l.length : ℚ) + 2)

/-- Result of the contact layout: the final cursor returned by
`appendContactTODoc` and the bottom edges of the drawn content boxes, all
relative to the block's top. -/
structure CLayout where
  finalY : ℚ
  boxBottoms : List ℚ
deriving DecidableEq

/-- Cursor trace of `appendContactTODoc` after the rectangle: the name cell
of height 10 keeps the cursor; a non-empty phone is drawn at cursor + 10
with height 5; the address starts 5 below the cursor, one line of 5 per
rendered address line; the additional-info lines start 2 below the cursor
with 3 per line; the final cursor is returned. -/
def contactLayout (c : CContact) : CLayout :=
  let nameBottom : ℚ := 10
  let afterPhone : ℚ × List ℚ :=
    if c.phone ≠ "" then (10, [15]) else (0, [])
  let afterAddress : ℚ × List ℚ :=
    match c.address with
    | none => (afterPhone.1, [])
    | some a =>
      let fin := afterPhone.1 + 5 + 5 * (addressLineCount a : ℚ)
      (fin, [fin])
  let afterInfo : ℚ × List ℚ :=
    match c.addtionnalInfo with
    | none => (afterAddress.1, [])
    | some l =>
      let fin := afterAddress.1 + 2 + 3 * (l.length : ℚ)
      (fin, [fin])
  ⟨afterInfo.1, nameBottom :: (afterPhone.2 ++ afterAddress.2 ++ afterInfo.2)⟩

/-- The bottommost edge of the drawn contact content. -/
def contactContentExtent (c : CContact) : ℚ :=
  (contactLayout c).boxBottoms.foldr max 0

/-- A concrete contact for the C6 counterexample: phone present, address
with a country and no second street line, one additional-info line. -/
def c6contact : CContact :=
  ⟨"Sample Company Ltd", "0123", some ⟨"123 Street", "", "70000", "HCM", "VN"⟩,
    some ["tax id 1"]⟩

/-- Claim C6 counterexample: for `c6contact` the pre-computed rectangle
height is 37 while the drawn content ends at 35, so the rectangle does not
exactly fit the content that follows (it over-sizes by 2). -/
theorem contactRect_not_exact_fit :
    ¬ (contactTotalHeight c6contact = contactContentExtent c6contact) := by
  have hph : ¬ (("0123" : String) = "") := by decide
  have ha2 : ¬ (0 < ("" : String).length) := by decide
  have hvc : ¬ (("VN" : String).length = 0) := by decide
  have h1 : contactTotalHeight c6contact = 37 := by
    norm_num [contactTotalHeight, c6contact, hph, hvc]
  have h2 : contactContentExtent c6contact = 35 := by
    norm_num [contactContentExtent, contactLayout, addressLineCount, c6contact,
      hph, ha2, hvc, max_def]
  rw [h1, h2]
  norm_num

set_option maxHeartbeats 1000000 in
/-- Claim C6 (amended): the background rectangle's height is the sum of the
fixed per-field heights computed before drawing, and it never under-sizes:
the drawn content (name cell, phone cell, address lines, additional-info
lines) always ends at or above the rectangle's bottom edge, though the
rectangle can exceed the drawn extent by a fixed padding; the layout
returns the final cursor, which also stays within the rectangle. -/
theorem contactRect_covers_content (c : CContact) :
    contactContentExtent c ≤ contactTotalHeight c
  ∧ (contactLayout c).finalY ≤ contactTotalHeight c := by
  obtain ⟨nm, ph, addr, info⟩ := c
  by_cases hp : ph = "" <;>
    rcases addr with _ | a <;>
    rcases info with _ | l
  all_goals try by_cases h2 : 0 < a.address2.length
  all_goals try by_cases hc : a.country.length = 0
  all_goals try have hl : (0 : ℚ) ≤ (l.length : ℚ) := Nat.cast_nonneg _
  all_goals
    simp [contactContentExtent, contactLayout, contactTotalHeight,
      addressLineCount, max_le_iff, *]
  all_goals repeat' apply And.intro
  all_goals linarith

/-! ## Mutation of line items during rendering (claim C7)

Embedding of the tax backfill performed inside the `appendItems` loop of
the first variant in `src/multi_document.go` (lines 326 to 335): for each
item, when `item.Tax == nil` the loop assigns `item.Tax = doc.DefaultTax`
before rendering the row. -/

/-- The line-item fields of the source `Item`; the tax and the discount are
summarised by their percent-or-amount strings. -/
structure GItem where
  name : String
  description : String
  unitCost : String
  quantity : String
  tax : Option String
  discount : Option String
deriving DecidableEq

/-- The per-item write performed by the `appendItems` loop: an item without
a tax receives the document's default tax. -/
def backfillTax (defaultTax : Option String) (it : GItem) : GItem :=
  match it.tax with
  | none => { it with tax := defaultTax }
  | some _ => it

/-- The effect of the `appendItems` loop on the item list of a document
with the given default tax. -/
def appendItemsTaxWrite (defaultTax : Option String) (items : List GItem) : List GItem :=
  items.map (backfillTax defaultTax)

/-- A concrete item without its own tax, for the C7 counterexample. -/
def c7item : GItem := ⟨"Dich vu tu van", "Tu van", "5000000", "1", none, none⟩

/-- Claim C7 counterexample: rendering a document whose default tax is 10
mutates the tax field of an item that had none, so the document is not
read-only during rendering. -/
theorem appendItems_mutates_item_tax :
    appendItemsTaxWrite (some "10") [c7item] ≠ [c7item] := by decide

/-- Claim C7 (amended): the only field of a line item the rendering loop
writes is a `nil` tax, which receives the document's default tax; every
other item field, and the tax of an item that already has one, is left
unchanged. -/
theorem appendItems_item_frame (defaultTax : Option String) (it : GItem) :
    (backfillTax defaultTax it).name = it.name
  ∧ (backfillTax defaultTax it).description = it.description
  ∧ (backfillTax defaultTax it).unitCost = it.unitCost
  ∧ (backfillTax defaultTax it).quantity = it.quantity
  ∧ (backfillTax defaultTax it).discount = it.discount
  ∧ (backfillTax defaultTax it).tax
      = (if it.tax = none then defaultTax else it.tax)
  ∧ appendItemsTaxWrite defaultTax [it] = [backfillTax defaultTax it] := by
  obtain ⟨nm, ds, u, q, tx, dc⟩ := it
  rcases tx with _ | t <;>
    simp [backfillTax, appendItemsTaxWrite]

/-! ## Barcode rendering (claim C8)

Embedding of `generateBarcode` and `appendBarcode` of the first variant in
`src/multi_document.go` (lines 517 to 603).  The external encoder, scaler
and JPEG compressor are oracles passed as functions; `none` is a failing
call.  The render state records the cursor, the placed images and the
caption texts. -/

/-- Failure points of the barcode pipeline. -/
inductive BarcodeErr where
  | encodeFail
  | scaleFail
  | jpegFail
deriving DecidableEq

/-- The external barcode boundary: Code 128 encode, scale, JPEG compress;
`none` is a failing call. -/
structure BarcodeOracle where
  encode : String → Option (List (List Bool))
  scale : List (List Bool) → Option (List (List Bool))
  jpegEncode : List (List Bool) → Option (List ℕ)

/-- `generateBarcode`: empty content yields no bytes and no error; any
failing stage aborts with its error; otherwise the compressed bytes. -/
def generateBarcode (o : BarcodeOracle) (content : String) :
    Except BarcodeErr (Option (List ℕ)) :=
  if content.length = 0 then Except.ok none
  else
    match o.encode content with
    | none => Except.error BarcodeErr.encodeFail
    | some bc =>
      match o.scale bc with
      | none => Except.error BarcodeErr.scaleFail
      | some sbc =>
        match o.jpegEncode sbc with
        | none => Except.error BarcodeErr.jpegFail
        | some bytes => Except.ok (some bytes)

/-- The render state seen by `appendBarcode`: cursor, placed images (name
and vertical position) and drawn caption texts. -/
structure BarcodeRenderState where
  y : ℚ
  images : List (String × ℚ)
  texts : List String
deriving DecidableEq

/-- `appendBarcode`: returns immediately on an empty payload; a failing
`generateBarcode` is swallowed; on success and a successful image
registration, the image is placed 10 below the cursor with the caption
below it, and the cursor is restored to its saved value. -/
def appendBarcode (o : BarcodeOracle) (registerOk : Bool) (ref barCode : String)
    (s : BarcodeRenderState) : BarcodeRenderState :=
  if barCode.length = 0 then s
  else
    match generateBarcode o barCode with
    | Except.error _ => s
    | Except.ok none => s
    | Except.ok (some _) =>
      if registerOk then
        let currentY := s.y
        let imgY := currentY + 10
        { y := currentY,
          images := s.images ++ [(String.append "barcode_" ref, imgY)],
          texts := s.texts ++ [barCode] }
      else s

/-- Claim C8: an empty barcode payload leaves the render state untouched
(no image, no caption, same cursor); a payload whose encode, scale or JPEG
stage fails is silently omitted with the state untouched and no error
surfaced; and in every case the cursor used by the subsequent totals
rendering is unchanged. -/
theorem appendBarcode_empty_or_failure_noop (o : BarcodeOracle) (r : Bool)
    (ref code : String) (s : BarcodeRenderState) :
    (code = "" → appendBarcode o r ref code s = s)
  ∧ (∀ e, generateBarcode o code = Except.error e →
      appendBarcode o r ref code s = s)
  ∧ (appendBarcode o r ref code s).y = s.y := by
  refine ⟨?_, ?_, ?_⟩
  · intro h
    subst h
    rfl
  · intro e he
    unfold appendBarcode
    rw [he]
    split <;> rfl
  · unfold appendBarcode
    split
    · rfl
    · cases hgen : generateBarcode o code with
      | error e => rfl
      | ok ob =>
        cases ob with
        | none => rfl
        | some b => cases r <;> simp

/-- An oracle whose encoder always fails, for the C8 witness. -/
def failingOracle : BarcodeOracle :=
  ⟨fun _ => none, fun m => some m, fun _ => some []⟩

/-- A concrete render state for the C8 witness. -/
def c8state : BarcodeRenderState := ⟨100, [], []⟩

/-- Claim C8 witness: with an always-failing encoder, a non-empty payload
is silently dropped, and an empty payload is a no-op. -/
theorem appendBarcode_empty_or_failure_noop_witness :
    generateBarcode failingOracle "INV-2024-001" = Except.error BarcodeErr.encodeFail
  ∧ appendBarcode failingOracle true "R" "INV-2024-001" c8state = c8state
  ∧ appendBarcode failingOracle true "R" "" c8state = c8state :=
  ⟨rfl,
    (appendBarcode_empty_or_failure_noop failingOracle true "R" "INV-2024-001"
        c8state).2.1 BarcodeErr.encodeFail rfl,
    (appendBarcode_empty_or_failure_noop failingOracle true "R" "" c8state).1 rfl⟩

/-! ## Header and footer callbacks (claim C9)

Embedding of the per-page callbacks installed by `applyHeader` and
`applyFooter` in `src/header_footer.go` (lines 24 to 82) over a cursor and
margin state.  The layout constants `BaseMargin`, `BaseMarginTop` and
`HeaderMarginTop` are defined outside the provided source files and are
modelled from the spec's margin bands with concrete values. -/

/-- Modelled from the spec: the left and right content margin. -/
def BaseMargin : ℚ := 10

/-- Modelled from the spec: the top content margin. -/
def BaseMarginTop : ℚ := 20

/-- Modelled from the spec: the top margin of the header band. -/
def HeaderMarginTop : ℚ := 5

/-- The renderer state touched by the callbacks: cursor, margins and the
sequence of written texts. -/
structure PdfCursorState where
  x : ℚ
  y : ℚ
  leftMargin : ℚ
  topMargin : ℚ
  rightMargin : ℚ
  written : List String
deriving DecidableEq

/-- The `SetMargins` renderer primitive: sets the left, top and right
margins. -/
def setMargins (l t r : ℚ) (s : PdfCursorState) : PdfCursorState :=
  { s with leftMargin := l, topMargin := t, rightMargin := r }

/-- The header callback of `applyHeader`: saves the cursor, sets the top
margin and cursor to the header band, sets the side margins, writes the
text, restores the saved cursor and sets the margins to the base content
margins. -/
def headerCallback (text : String) (s : PdfCursorState) : PdfCursorState :=
  let currentY := s.y
  let currentX := s.x
  let s1 := { s with topMargin := HeaderMarginTop, y := HeaderMarginTop }
  let s2 := { s1 with leftMargin := BaseMargin }
  let s3 := { s2 with rightMargin := BaseMargin }
  let s4 := { s3 with written := s3.written ++ [text] }
  let s5 := { s4 with y := currentY }
  let s6 := { s5 with x := currentX }
  setMargins BaseMargin BaseMarginTop BaseMargin s6

/-- The footer callback of `applyFooter`: saves the cursor, sets the top
margin and moves the cursor to the footer band at `287 - HeaderMarginTop`,
writes the text, restores the saved cursor and sets the margins to the base
content margins. -/
def footerCallback (text : String) (s : PdfCursorState) : PdfCursorState :=
  let currentY := s.y
  let currentX := s.x
  let s1 := { s with topMargin := HeaderMarginTop, y := 287 - HeaderMarginTop }
  let s2 := { s1 with written := s1.written ++ [text] }
  let s3 := { s2 with y := currentY }
  let s4 := { s3 with x := currentX }
  setMargins BaseMargin BaseMarginTop BaseMargin s4

/-- Claim C9 counterexample: a header invocation on a state whose left
margin is 42 ends with left margin `BaseMargin = 10`, so the callback does
not restore the prior margins. -/
theorem headerCallback_margin_counterexample :
    ¬ ((headerCallback "HOA DON" ⟨0, 0, 42, 20, 10, []⟩).leftMargin
        = (⟨0, 0, 42, 20, 10, []⟩ : PdfCursorState).leftMargin) := by
  norm_num [headerCallback, setMargins, BaseMargin]

/-- Claim C9 (amended): each header and footer invocation saves and
restores the cursor exactly and renders the configured text, but it ends by
setting the margins to the base content margins rather than the saved prior
ones; the body margins are therefore preserved exactly when they were the
base margins. -/
theorem headerFooter_callback_frame (text : String) (s : PdfCursorState) :
    (headerCallback text s).x = s.x
  ∧ (headerCallback text s).y = s.y
  ∧ (headerCallback text s).written = s.written ++ [text]
  ∧ (headerCallback text s).leftMargin = BaseMargin
  ∧ (headerCallback text s).topMargin = BaseMarginTop
  ∧ (headerCallback text s).rightMargin = BaseMargin
  ∧ (footerCallback text s).x = s.x
  ∧ (footerCallback text s).y = s.y
  ∧ (footerCallback text s).written = s.written ++ [text]
  ∧ (footerCallback text s).leftMargin = BaseMargin
  ∧ (footerCallback text s).topMargin = BaseMarginTop
  ∧ (footerCallback text s).rightMargin = BaseMargin :=
  ⟨rfl, rfl, rfl, rfl, rfl, rfl, rfl, rfl, rfl, rfl, rfl, rfl⟩

/-! ## Money formatting at precision 0 (claim C10)

Modelled from the spec: the money formatter (spec 4.1) used by
`FormatMoneyDecimal`, whose implementation is outside the provided source
files.  The amount is rounded to the configured precision with standard
half-away-from-zero rounding, the integer part is grouped into thousands,
the fractional part joined with the decimal separator when the precision is
positive, and the template selected by sign receives the amount and the
symbol in its two slots. -/

/-- Little-endian decimal digits of a natural number, with explicit
fuel for structural recursion. -/
def natDigitsRev : ℕ → ℕ → List ℕ
  | 0, _ => []
  | _ + 1, 0 => []
  | fuel + 1, n => n % 10 :: natDigitsRev fuel (n / 10)

/-- Little-endian decimal digits of a natural number. -/
def natDigits (n : ℕ) : List ℕ := natDigitsRev (n + 1) n

/-- The character of one decimal digit. -/
def digitChar (d : ℕ) : Char := Char.ofNat (48 + d % 10)

/-- Chunks of three little-endian digits, the thousands groups. -/
def chunk3 : List ℕ → List (List ℕ)
  | [] => []
  | d1 :: d2 :: d3 :: rest => [d1, d2, d3] :: chunk3 rest
  | l => [l]

/-- The integer part grouped into thousands with the configured
separator. -/
def natGrouped (sep : String) (n : ℕ) : String :=
  if n = 0 then "0"
  else
    String.intercalate sep
      (((chunk3 (natDigits n)).map
          (fun g => String.mk ((g.reverse).map digitChar))).reverse)

/-- The fractional digits of `n`, left-padded with zeros to `p` digits. -/
def padLeftZeros (p : ℕ) (n : ℕ) : String :=
  let ds := (natDigits n).reverse.map digitChar
  String.mk (List.replicate (p - ds.length) (Char.ofNat 48) ++ ds)

/-- Substitute the amount for the `%v` slot and the symbol for the `%s`
slot of a template. -/
def substSlots (v s : String) : List Char → List Char
  | [] => []
  | c1 :: c2 :: rest =>
    if c1 = Char.ofNat 37 ∧ c2 = Char.ofNat 118 then v.data ++ substSlots v s rest
    else if c1 = Char.ofNat 37 ∧ c2 = Char.ofNat 115 then s.data ++ substSlots v s rest
    else c1 :: substSlots v s (c2 :: rest)
  | [c] => [c]

/-- Apply a two-slot money template to an amount string and a symbol. -/
def applyTemplate (tpl v s : String) : String :=
  String.mk (substSlots v s tpl.data)

/-- Modelled from the spec: the money formatter configuration — symbol,
thousands separator, decimal separator, precision and the three sign
templates (spec 4.1). -/
structure MoneyConfig where
  symbol : String
  thousand : String
  decimalSep : String
  precision : ℕ
  format : String
  formatNegative : String
  formatZero : String

/-- The amount scaled by `10 ^ precision` and rounded half away from
zero. -/
def roundAmountScaled (precision : ℕ) (q : ℚ) : ℤ :=
  let scaled := q * (10 : ℚ) ^ precision
  if 0 ≤ scaled then ⌊scaled + 1 / 2⌋ else -⌊-scaled + 1 / 2⌋

/-- Modelled from the spec: `MoneyFormatter.format` — round to the
precision, group the integer part, append the fraction when the precision
is positive, select the template by sign and substitute the two slots
(spec 4.1). -/
def formatMoney (cfg : MoneyConfig) (q : ℚ) : String :=
  let scaled := roundAmountScaled cfg.precision q
  let mag := scaled.natAbs
  let intPart := mag / 10 ^ cfg.precision
  let fracPart := mag % 10 ^ cfg.precision
  let intStr := natGrouped cfg.thousand intPart
  let amountStr :=
    if cfg.precision = 0 then intStr
    else intStr ++ cfg.decimalSep ++ padLeftZeros cfg.precision fracPart
  let tpl :=
    if scaled = 0 then cfg.formatZero
    else if scaled < 0 then cfg.formatNegative
    else cfg.format
  applyTemplate tpl amountStr cfg.symbol

/-- The configuration of the C10 example: euro symbol, space thousands
separator, dot decimal separator, precision 0 and the `%v %s` templates. -/
def euroConfig : MoneyConfig :=
  ⟨"€ ", " ", ".", 0, "%v %s", "- %v %s", "%v %s"⟩

/-- Claim C10: at precision 0 the configured rounding is applied before the
fraction is dropped: 100.75 formats to the same string as 101.00, namely
the rounded integer part 101 with the symbol. -/
theorem formatMoney_precision0_rounds :
    formatMoney euroConfig (403 / 4 : ℚ) = "101 € "
  ∧ formatMoney euroConfig (101 : ℚ) = "101 € " := by
  constructor
  · have h : roundAmountScaled euroConfig.precision (403 / 4 : ℚ) = 101 := by
      show roundAmountScaled 0 (403 / 4 : ℚ) = 101
      norm_num [roundAmountScaled]
    simp only [formatMoney]
    rw [h]
    rfl
  · have h : roundAmountScaled euroConfig.precision (101 : ℚ) = 101 := by
      show roundAmountScaled 0 (101 : ℚ) = 101
      norm_num [roundAmountScaled]
    simp only [formatMoney]
    rw [h]
    rfl

end Invoice
